import Mathlib

/-!
Verification of the GitHub runner-scale-set listener entry point
(`cmd/githubrunnerscalesetlistener/main.go`): configuration validation,
credential selection, client construction, service wiring, prometheus
registration and the shape of the `run` entry point.

Go machine integers (`int`, `int64`) are modelled as `Int`: every check the
source performs on them is a sign/equality/order comparison, which `Int`
models faithfully for the machine range. Go strings are Lean `String`s.
External collaborators (x509 pools, the autoscaler client, the kube manager,
the service loop) are modelled as oracles supplied to the embedded control
flow, so that each branch of the source is represented.
-/

/-- The environment-derived configuration struct of the listener
(`RunnerScaleSetListenerConfig` in main.go). -/
structure RunnerScaleSetListenerConfig where
  ConfigureUrl : String
  AppID : Int
  AppInstallationID : Int
  AppPrivateKey : String
  Token : String
  EphemeralRunnerSetNamespace : String
  EphemeralRunnerSetName : String
  MaxRunners : Int
  MinRunners : Int
  RunnerScaleSetId : Int
  ServerRootCA : String
  EnablePrometheusMetrics : Bool
deriving DecidableEq, Repr

/-- The distinct error exits of `validateConfig`, one per `return fmt.Errorf`
branch, in source order. -/
inductive ConfigError
  | missingConfigureUrl
  | missingEphemeralRunnerSet
  | missingRunnerScaleSetId
  | invalidBounds
  | missingAuthCredential
  | multipleAuthMethods
deriving DecidableEq, Repr

/-- `validateConfig` from main.go, branch for branch: the checked conditions
are exactly the Go conditions (`len(s) == 0`, `== 0`, `<`, `> 0`, `!= ""`),
and the returned error identifies the branch taken. `none` is Go `nil`. -/
def validateConfig (config : RunnerScaleSetListenerConfig) : Option ConfigError :=
  if config.ConfigureUrl.length = 0 then
    some ConfigError.missingConfigureUrl
  else if config.EphemeralRunnerSetNamespace.length = 0 ∨ config.EphemeralRunnerSetName.length = 0 then
    some ConfigError.missingEphemeralRunnerSet
  else if config.RunnerScaleSetId = 0 then
    some ConfigError.missingRunnerScaleSetId
  else if config.MaxRunners < config.MinRunners then
    some ConfigError.invalidBounds
  else if ¬ config.Token.length > 0 ∧ ¬ (config.AppID > 0 ∧ config.AppPrivateKey ≠ "") then
    some ConfigError.missingAuthCredential
  else if config.Token.length > 0 ∧ (config.AppID > 0 ∧ config.AppPrivateKey ≠ "") then
    some ConfigError.multipleAuthMethods
  else
    none

/-- The observable outcome of `main`: each `os.Exit(1)` site, or the call
into `run`. -/
inductive MainStep
  | exitLoggerFailure
  | exitEnvProcessingFailure
  | exitValidationFailure (e : ConfigError)
  | runInvoked (rc : RunnerScaleSetListenerConfig)
deriving DecidableEq, Repr

/-- Oracle for the two external steps `main` performs before validation:
logger construction and `envconfig.Process` (whose parsed result, when it
succeeds, is the configuration handed on). -/
structure MainEnv where
  loggerOk : Bool
  envResult : Option RunnerScaleSetListenerConfig

/-- `main` from main.go: logger, envconfig, `validateConfig`, then `run`.
Every error branch exits the process; `run` is invoked only when
`validateConfig` returned `nil`. -/
def mainModel (env : MainEnv) : MainStep :=
  if env.loggerOk = false then
    MainStep.exitLoggerFailure
  else
    match env.envResult with
    | none => MainStep.exitEnvProcessingFailure
    | some rc =>
      match validateConfig rc with
      | some e => MainStep.exitValidationFailure e
      | none => MainStep.runInvoked rc

/-- A configuration that `validateConfig` accepts although both bounds are
negative: every identifier present, token auth, `MinRunners = -2`,
`MaxRunners = -1`. -/
def cfgNegativeBounds : RunnerScaleSetListenerConfig :=
  { ConfigureUrl := "https://github.example.com/org"
    AppID := 0
    AppInstallationID := 0
    AppPrivateKey := ""
    Token := "pat-token"
    EphemeralRunnerSetNamespace := "arc-ns"
    EphemeralRunnerSetName := "arc-set"
    MaxRunners := -1
    MinRunners := -2
    RunnerScaleSetId := 3
    ServerRootCA := ""
    EnablePrometheusMetrics := false }

/-- A fully valid configuration using token auth. -/
def cfgValidToken : RunnerScaleSetListenerConfig :=
  { ConfigureUrl := "https://github.example.com/org"
    AppID := 0
    AppInstallationID := 0
    AppPrivateKey := ""
    Token := "pat-token"
    EphemeralRunnerSetNamespace := "arc-ns"
    EphemeralRunnerSetName := "arc-set"
    MaxRunners := 5
    MinRunners := 0
    RunnerScaleSetId := 7
    ServerRootCA := ""
    EnablePrometheusMetrics := true }

/-- C1, counterexample: the claim says every accepted configuration has
`MinRunners ≥ 0` and `MaxRunners ≥ 0`; `cfgNegativeBounds` is accepted
(`validateConfig` returns `nil`) with both bounds negative. -/
theorem validateConfig_accepts_negative_bounds :
    validateConfig cfgNegativeBounds = none ∧
      cfgNegativeBounds.MinRunners < 0 ∧ cfgNegativeBounds.MaxRunners < 0 := by
  refine ⟨?_, by decide, by decide⟩
  decide

/-- C1 (amended): every configuration accepted by `validateConfig` satisfies
`MinRunners ≤ MaxRunners`; non-negativity of the bounds is not checked, and
`validateConfig` is the single validation point of the startup path. -/
theorem validateConfig_accepted_bounds (cfg : RunnerScaleSetListenerConfig)
    (h : validateConfig cfg = none) : cfg.MinRunners ≤ cfg.MaxRunners := by
  unfold validateConfig at h
  split_ifs at h with h1 h2 h3 h4 h5 h6
  omega

/-- C1 witness: the amended theorem applied to the valid token config. -/
theorem validateConfig_accepted_bounds_witness :
    cfgValidToken.MinRunners ≤ cfgValidToken.MaxRunners :=
  validateConfig_accepted_bounds cfgValidToken (by decide)

/-- C2: `validateConfig` rejects every configuration with a missing
identifier (`ConfigureUrl`, namespace, name empty, or `RunnerScaleSetId`
zero) or invalid bounds (`MaxRunners < MinRunners`); and whenever
`validateConfig` errors, `main` exits without invoking `run`. -/
theorem validateConfig_rejects_and_main_exits (env : MainEnv)
    (rc : RunnerScaleSetListenerConfig) :
    ((rc.ConfigureUrl = "" ∨ rc.EphemeralRunnerSetNamespace = "" ∨
        rc.EphemeralRunnerSetName = "" ∨ rc.RunnerScaleSetId = 0 ∨
        rc.MaxRunners < rc.MinRunners) →
      (validateConfig rc).isSome = true) ∧
    (env.envResult = some rc → (validateConfig rc).isSome = true →
      ∀ rc2, mainModel env ≠ MainStep.runInvoked rc2) := by
  constructor
  · intro hmiss
    unfold validateConfig
    split_ifs with h1 h2 h3 h4 h5 h6 <;> try rfl
    exfalso
    rcases hmiss with h | h | h | h | h
    · exact h1 (by simp [h])
    · exact h2 (Or.inl (by simp [h]))
    · exact h2 (Or.inr (by simp [h]))
    · exact h3 h
    · exact h4 h
  · intro henv hsome rc2
    unfold mainModel
    rcases hb : env.loggerOk with _ | _
    · simp
    · simp only [henv]
      rcases hv : validateConfig rc with _ | e
      · simp [hv] at hsome
      · simp

/-- C2 witness: a configuration with empty `ConfigureUrl` is rejected and
`main` does not invoke `run` on it. -/
theorem validateConfig_rejects_and_main_exits_witness :
    (validateConfig
        { cfgValidToken with ConfigureUrl := "" }).isSome = true ∧
      ∀ rc2,
        mainModel
            { loggerOk := true,
              envResult := some { cfgValidToken with ConfigureUrl := "" } } ≠
          MainStep.runInvoked rc2 := by
  have h := validateConfig_rejects_and_main_exits
    { loggerOk := true, envResult := some { cfgValidToken with ConfigureUrl := "" } }
    { cfgValidToken with ConfigureUrl := "" }
  exact ⟨h.1 (Or.inl rfl), h.2 rfl (h.1 (Or.inl rfl))⟩

/-- `actions.GitHubAppAuth` as populated by `run`. -/
structure GitHubAppAuth where
  AppID : Int
  AppInstallationID : Int
  AppPrivateKey : String
deriving DecidableEq, Repr

/-- `actions.ActionsAuth`: zero value has empty token and no app creds,
matching the Go zero value `&actions.ActionsAuth{}`. -/
structure ActionsAuth where
  Token : String
  AppCreds : Option GitHubAppAuth
deriving DecidableEq, Repr

/-- The credential construction at the top of `run`: start from the zero
value; if `rc.Token != ""` set the token, else set the app credentials from
the three app fields. -/
def buildCreds (rc : RunnerScaleSetListenerConfig) : ActionsAuth :=
  if rc.Token ≠ "" then
    { Token := rc.Token, AppCreds := none }
  else
    { Token := "",
      AppCreds := some
        { AppID := rc.AppID,
          AppInstallationID := rc.AppInstallationID,
          AppPrivateKey := rc.AppPrivateKey } }

/-- `hasToken` of `validateConfig`: `len(config.Token) > 0`. -/
def hasToken (rc : RunnerScaleSetListenerConfig) : Prop :=
  rc.Token.length > 0

/-- `hasPrivateKeyConfig` of `validateConfig`:
`config.AppID > 0 && config.AppPrivateKey != ""`. -/
def hasPrivateKeyConfig (rc : RunnerScaleSetListenerConfig) : Prop :=
  rc.AppID > 0 ∧ rc.AppPrivateKey ≠ ""

instance (rc : RunnerScaleSetListenerConfig) : Decidable (hasToken rc) := by
  unfold hasToken; infer_instance

instance (rc : RunnerScaleSetListenerConfig) : Decidable (hasPrivateKeyConfig rc) := by
  unfold hasPrivateKeyConfig; infer_instance

/-- A Go `len(s) == 0` check is an emptiness check. -/
theorem length_zero_iff_empty (s : String) : s.length = 0 ↔ s = "" := by
  constructor
  · intro h
    cases s with
    | mk data =>
      cases data with
      | nil => rfl
      | cons a l => simp [String.length] at h
  · intro h
    subst h
    rfl

/-- C8: `validateConfig` rejects a configuration with neither auth method and
one with both; every accepted configuration has exactly one of them, and
`run` builds the matching credential: the token credential when `Token` is
non-empty, the app credential otherwise. -/
theorem validateConfig_exactly_one_auth (rc : RunnerScaleSetListenerConfig) :
    ((¬ hasToken rc ∧ ¬ hasPrivateKeyConfig rc) → (validateConfig rc).isSome = true) ∧
    ((hasToken rc ∧ hasPrivateKeyConfig rc) → (validateConfig rc).isSome = true) ∧
    (validateConfig rc = none →
      (rc.Token ≠ "" ∧ ¬ hasPrivateKeyConfig rc ∧
        buildCreds rc = { Token := rc.Token, AppCreds := none }) ∨
      (rc.Token = "" ∧ hasPrivateKeyConfig rc ∧
        buildCreds rc =
          { Token := "",
            AppCreds := some
              { AppID := rc.AppID,
                AppInstallationID := rc.AppInstallationID,
                AppPrivateKey := rc.AppPrivateKey } })) := by
  refine ⟨?_, ?_, ?_⟩
  · intro hnone
    unfold validateConfig
    split_ifs with h1 h2 h3 h4 h5 h6 <;> try rfl
    exact absurd (And.intro hnone.1 hnone.2) h5
  · intro hboth
    unfold validateConfig
    split_ifs with h1 h2 h3 h4 h5 h6 <;> try rfl
    exact absurd (And.intro hboth.1 hboth.2) h6
  · intro hnil
    unfold validateConfig at hnil
    split_ifs at hnil with h1 h2 h3 h4 h5 h6
    by_cases ht : rc.Token = ""
    · right
      have hk : hasPrivateKeyConfig rc := by
        by_contra hk
        exact h5 ⟨by simp [ht], hk⟩
      exact ⟨ht, hk, by unfold buildCreds; simp [ht]⟩
    · left
      have htl : rc.Token.length > 0 := by
        cases hc : rc.Token.length with
        | zero => exact absurd ((length_zero_iff_empty rc.Token).mp hc) ht
        | succ n => omega
      have hk : ¬ hasPrivateKeyConfig rc := fun hk => h6 ⟨htl, hk⟩
      exact ⟨ht, hk, by unfold buildCreds; simp [ht]⟩

/-- C8 witness: the valid token configuration is accepted with the token
credential selected. -/
theorem validateConfig_exactly_one_auth_witness :
    buildCreds cfgValidToken = { Token := "pat-token", AppCreds := none } := by
  have h := (validateConfig_exactly_one_auth cfgValidToken).2.2 (by decide)
  rcases h with ⟨_, _, hc⟩ | ⟨hts, _, _⟩
  · exact hc
  · exact absurd hts (by decide)

/-- An app-auth configuration whose `AppInstallationID` is negative. -/
def cfgAppNegativeInstall : RunnerScaleSetListenerConfig :=
  { ConfigureUrl := "https://github.example.com/org"
    AppID := 12
    AppInstallationID := -7
    AppPrivateKey := "private-key-pem"
    Token := ""
    EphemeralRunnerSetNamespace := "arc-ns"
    EphemeralRunnerSetName := "arc-set"
    MaxRunners := 4
    MinRunners := 1
    RunnerScaleSetId := 9
    ServerRootCA := ""
    EnablePrometheusMetrics := false }

/-- C9: `AppInstallationID` is never validated: with app auth present
(`AppID > 0`, non-empty key) and the other fields valid, any
`AppInstallationID` whatsoever (zero or negative included) is accepted by
`validateConfig` and copied unchanged into the `GitHubAppAuth` credential. -/
theorem appInstallationID_not_validated (rc : RunnerScaleSetListenerConfig)
    (hurl : rc.ConfigureUrl ≠ "") (hns : rc.EphemeralRunnerSetNamespace ≠ "")
    (hname : rc.EphemeralRunnerSetName ≠ "") (hid : rc.RunnerScaleSetId ≠ 0)
    (hb : rc.MinRunners ≤ rc.MaxRunners) (htok : rc.Token = "")
    (happ : rc.AppID > 0) (hkey : rc.AppPrivateKey ≠ "") :
    validateConfig rc = none ∧
      (buildCreds rc).AppCreds = some
        { AppID := rc.AppID, AppInstallationID := rc.AppInstallationID,
          AppPrivateKey := rc.AppPrivateKey } := by
  have hurl0 : ¬ rc.ConfigureUrl.length = 0 :=
    fun h => hurl ((length_zero_iff_empty _).mp h)
  have hns0 : ¬ (rc.EphemeralRunnerSetNamespace.length = 0 ∨
      rc.EphemeralRunnerSetName.length = 0) := by
    rintro (h | h)
    · exact hns ((length_zero_iff_empty _).mp h)
    · exact hname ((length_zero_iff_empty _).mp h)
  have hnb : ¬ rc.MaxRunners < rc.MinRunners := by omega
  have htok0 : rc.Token.length = 0 := (length_zero_iff_empty _).mpr htok
  constructor
  · unfold validateConfig
    rw [if_neg hurl0, if_neg hns0, if_neg hid, if_neg hnb,
      if_neg (fun hc => hc.2 ⟨happ, hkey⟩), if_neg (fun hc => by omega)]
  · unfold buildCreds
    simp [htok]

/-- C9 witness: `AppInstallationID = -7` is accepted and passed through. -/
theorem appInstallationID_not_validated_witness :
    validateConfig cfgAppNegativeInstall = none ∧
      (buildCreds cfgAppNegativeInstall).AppCreds = some
        { AppID := 12, AppInstallationID := -7,
          AppPrivateKey := "private-key-pem" } :=
  appInstallationID_not_validated cfgAppNegativeInstall (by decide) (by decide)
    (by decide) (by decide) (by decide) (by decide) (by decide) (by decide)

/-- Oracle for the x509 collaborators of `newActionsClientFromConfig`:
`x509.SystemCertPool` (`none` models its error return) and the set of
certificates `AppendCertsFromPEM` extracts from a PEM blob (`[]` models the
`ok == false` outcome: nothing parsed). Certificates are opaque strings. -/
structure X509Env where
  systemPool : Option (List String)
  parsePEM : String → List String

/-- The client options assembled by `run` and `newActionsClientFromConfig`
and handed to `actions.NewClient`. -/
inductive ClientOption
  | withLogger
  | withUserAgent
  | withRootCAs (pool : List String)
  | withProxyFromEnvironment
deriving DecidableEq, Repr

/-- The two error exits of `newActionsClientFromConfig` itself. -/
inductive ClientBuildError
  | systemPoolLoadFailure
  | rootCertificateParseFailure
deriving DecidableEq, Repr

/-- `newActionsClientFromConfig` from main.go: when `ServerRootCA` is
non-empty, load the system pool (propagating its failure), clone it, append
the PEM certificates (failing when none parse), and add a `WithRootCAs`
option carrying the extended pool; then in all surviving paths append the
proxy-from-environment option. The returned option list is what
`actions.NewClient` (external) is invoked with. -/
def newActionsClientFromConfig (config : RunnerScaleSetListenerConfig)
    (env : X509Env) (options : List ClientOption) :
    Except ClientBuildError (List ClientOption) :=
  (if config.ServerRootCA ≠ "" then
    match env.systemPool with
    | none => Except.error ClientBuildError.systemPoolLoadFailure
    | some systemPool =>
      if env.parsePEM config.ServerRootCA = [] then
        Except.error ClientBuildError.rootCertificateParseFailure
      else
        Except.ok (options ++
          [ClientOption.withRootCAs (systemPool ++ env.parsePEM config.ServerRootCA)])
  else
    Except.ok options).map
    (fun opts => opts ++ [ClientOption.withProxyFromEnvironment])

/-- C5: the custom trust anchor is optional: empty `ServerRootCA` adds no
root-CA option; a non-empty `ServerRootCA` fails when the system pool cannot
be loaded or when no certificate parses from it; when it parses, the client
options carry the system pool extended by the parsed anchors; and every
successfully built option list ends with the proxy-from-environment option. -/
theorem newActionsClient_rootCA_optional (config : RunnerScaleSetListenerConfig)
    (env : X509Env) (options : List ClientOption) :
    (config.ServerRootCA = "" →
      newActionsClientFromConfig config env options =
        Except.ok (options ++ [ClientOption.withProxyFromEnvironment])) ∧
    (config.ServerRootCA ≠ "" → env.systemPool = none →
      newActionsClientFromConfig config env options =
        Except.error ClientBuildError.systemPoolLoadFailure) ∧
    (∀ sp, config.ServerRootCA ≠ "" → env.systemPool = some sp →
      env.parsePEM config.ServerRootCA = [] →
      newActionsClientFromConfig config env options =
        Except.error ClientBuildError.rootCertificateParseFailure) ∧
    (∀ sp, config.ServerRootCA ≠ "" → env.systemPool = some sp →
      env.parsePEM config.ServerRootCA ≠ [] →
      newActionsClientFromConfig config env options =
        Except.ok (options ++
          [ClientOption.withRootCAs (sp ++ env.parsePEM config.ServerRootCA),
           ClientOption.withProxyFromEnvironment])) ∧
    (∀ opts, newActionsClientFromConfig config env options = Except.ok opts →
      ClientOption.withProxyFromEnvironment ∈ opts) := by
  refine ⟨?_, ?_, ?_, ?_, ?_⟩
  · intro h
    simp [newActionsClientFromConfig, h, Except.map]
  · intro h hp
    simp [newActionsClientFromConfig, h, hp, Except.map]
  · intro sp h hp hparse
    simp [newActionsClientFromConfig, h, hp, hparse, Except.map]
  · intro sp h hp hparse
    simp [newActionsClientFromConfig, h, hp, hparse, Except.map]
  · intro opts hok
    unfold newActionsClientFromConfig at hok
    by_cases hca : config.ServerRootCA = ""
    · rw [if_neg (not_not_intro hca)] at hok
      simp [Except.map] at hok
      subst hok
      simp
    · rw [if_pos hca] at hok
      rcases hp : env.systemPool with _ | sp <;> rw [hp] at hok
      · simp [Except.map] at hok
      · by_cases hparse : env.parsePEM config.ServerRootCA = []
        · simp [Except.map, hparse] at hok
        · simp [Except.map, hparse] at hok
          subst hok
          simp

/-- C5 witness: all four branches exercised at concrete inputs. -/
theorem newActionsClient_rootCA_optional_witness :
    newActionsClientFromConfig cfgValidToken
        { systemPool := some ["sys"], parsePEM := fun _ => [] }
        [ClientOption.withLogger] =
      Except.ok [ClientOption.withLogger, ClientOption.withProxyFromEnvironment] ∧
    newActionsClientFromConfig { cfgValidToken with ServerRootCA := "pem" }
        { systemPool := none, parsePEM := fun _ => [] } [] =
      Except.error ClientBuildError.systemPoolLoadFailure ∧
    newActionsClientFromConfig { cfgValidToken with ServerRootCA := "pem" }
        { systemPool := some ["sys"], parsePEM := fun _ => [] } [] =
      Except.error ClientBuildError.rootCertificateParseFailure ∧
    newActionsClientFromConfig { cfgValidToken with ServerRootCA := "pem" }
        { systemPool := some ["sys"], parsePEM := fun _ => ["anchor"] } [] =
      Except.ok [ClientOption.withRootCAs ["sys", "anchor"],
        ClientOption.withProxyFromEnvironment] := by
  refine ⟨?_, ?_, ?_, ?_⟩
  · exact (newActionsClient_rootCA_optional cfgValidToken
      { systemPool := some ["sys"], parsePEM := fun _ => [] }
      [ClientOption.withLogger]).1 rfl
  · exact (newActionsClient_rootCA_optional
      { cfgValidToken with ServerRootCA := "pem" }
      { systemPool := none, parsePEM := fun _ => [] } []).2.1 (by decide) rfl
  · exact (newActionsClient_rootCA_optional
      { cfgValidToken with ServerRootCA := "pem" }
      { systemPool := some ["sys"], parsePEM := fun _ => [] } []).2.2.1
      ["sys"] (by decide) rfl rfl
  · exact (newActionsClient_rootCA_optional
      { cfgValidToken with ServerRootCA := "pem" }
      { systemPool := some ["sys"], parsePEM := fun _ => ["anchor"] } []).2.2.2.1
      ["sys"] (by decide) rfl (by simp)

/-- The Go integer-to-string conversion `string(i)` (Go language spec): the
one-character UTF-8 string of the code point `i`; a value that is not a
valid code point (negative, above U+10FFFF, or a surrogate) yields the
replacement character U+FFFD. This is NOT the decimal representation. -/
def goStringOfInt (n : Int) : String :=
  if 0 ≤ n ∧ n ≤ 1114111 ∧ ¬ (55296 ≤ n ∧ n ≤ 57343) then
    String.mk [Char.ofNat n.toNat]
  else
    String.mk [Char.ofNat 65533]

/-- The decimal representation of an integer. -/
def decimalRepr (n : Int) : String :=
  toString n

/-- The `ScaleSettings` struct built by `run`. -/
structure ScaleSettings where
  Namespace : String
  ResourceName : String
  MaxRunners : Int
  MinRunners : Int
deriving DecidableEq, Repr

/-- The `scaleSettings` literal of `run`, field for field. -/
def scaleSettingsOf (rc : RunnerScaleSetListenerConfig) : ScaleSettings :=
  { Namespace := rc.EphemeralRunnerSetNamespace
    ResourceName := rc.EphemeralRunnerSetName
    MaxRunners := rc.MaxRunners
    MinRunners := rc.MinRunners }

/-- The `prometheus.Labels` map set on the service by `run`, in source
order; the first value is Go `string(rc.RunnerScaleSetId)`, a code-point
conversion. -/
def servicePrometheusLabels (rc : RunnerScaleSetListenerConfig) :
    List (String × String) :=
  [("runner_scale_set_name", goStringOfInt rc.RunnerScaleSetId),
   ("runner_scale_set_config_url", rc.ConfigureUrl),
   ("auto_scaling_runner_set_name", rc.EphemeralRunnerSetName),
   ("auto_scaling_runner_set_namespace", rc.EphemeralRunnerSetNamespace)]

/-- Modelled from the spec: the sixteen scale-set collectors (job gauges,
runner gauges, desired-replica gauge, per-transition counters, duration
histograms) named in the `MustRegister` call are package-level collectors
defined outside src/ (in the metrics file of the listener package); each is a distinct
collector, represented here by a distinct constructor carrying its Go
variable name. -/
inductive Collector
  | githubRunnerScaleSetAvailableJobs
  | githubRunnerScaleSetAcquiredJobs
  | githubRunnerScaleSetAssignedJobs
  | githubRunnerScaleSetRunningJobs
  | githubRunnerScaleSetRegisteredRunners
  | githubRunnerScaleSetBusyRunners
  | githubRunnerScaleSetIdleRunners
  | githubRunnerScaleSetAcquireJobTotal
  | githubRunnerScaleSetDesiredEphemeralRunnerPods
  | githubRunnerScaleSetJobAvailableTotal
  | githubRunnerScaleSetJobAssignedTotal
  | githubRunnerScaleSetJobStartedTotal
  | githubRunnerScaleSetJobCompletedTotal
  | githubRunnerScaleSetJobQueueDurationSeconds
  | githubRunnerScaleSetJobStartDurationSeconds
  | githubRunnerScaleSetJobRunDurationSeconds
deriving DecidableEq, Repr

/-- The `MustRegister` argument list of `run`, in source order. -/
def scaleSetCollectors : List Collector :=
  [Collector.githubRunnerScaleSetAvailableJobs,
   Collector.githubRunnerScaleSetAcquiredJobs,
   Collector.githubRunnerScaleSetAssignedJobs,
   Collector.githubRunnerScaleSetRunningJobs,
   Collector.githubRunnerScaleSetRegisteredRunners,
   Collector.githubRunnerScaleSetBusyRunners,
   Collector.githubRunnerScaleSetIdleRunners,
   Collector.githubRunnerScaleSetAcquireJobTotal,
   Collector.githubRunnerScaleSetDesiredEphemeralRunnerPods,
   Collector.githubRunnerScaleSetJobAvailableTotal,
   Collector.githubRunnerScaleSetJobAssignedTotal,
   Collector.githubRunnerScaleSetJobStartedTotal,
   Collector.githubRunnerScaleSetJobCompletedTotal,
   Collector.githubRunnerScaleSetJobQueueDurationSeconds,
   Collector.githubRunnerScaleSetJobStartDurationSeconds,
   Collector.githubRunnerScaleSetJobRunDurationSeconds]

/-- `prometheus.MustRegister` over a registry of already-registered
collectors: registers left to right; `none` models the duplicate-
registration panic. -/
def mustRegister (registry : List Collector) (cs : List Collector) :
    Option (List Collector) :=
  cs.foldl
    (fun acc c =>
      match acc with
      | none => none
      | some r => if c ∈ r then none else some (r ++ [c]))
    (some registry)

/-- The calls `run` makes, in order, as observable events. -/
inductive RunEvent
  | credsBuilt (creds : ActionsAuth)
  | clientCreated (opts : List ClientOption)
  | autoscalerRequested (scaleSetId : Int)
  | kubeManagerCreated
  | serviceCreated (settings : ScaleSettings) (labels : List (String × String))
  | collectorsRegistered (cs : List Collector)
  | serviceStarted
deriving DecidableEq, Repr

/-- The construction step whose failure makes `run` return an error. -/
inductive RunFailStage
  | clientCreation
  | autoscalerCreation
  | kubeManagerCreation
  | startFailure
deriving DecidableEq, Repr

/-- How `run` ends: an error return, the landing-page `os.Exit(1)` (a
process exit, not a return of `run`), or the `nil` return after
`service.Start()` completes. -/
inductive RunExit
  | returnsError (s : RunFailStage)
  | processExit
  | returnsNil
deriving DecidableEq, Repr

/-- Oracle for the external constructors `run` calls: the x509 collaborators
plus `NewAutoScalerClient`, `NewKubernetesManager` and `web.NewLandingPage`
success. -/
structure RunEnv where
  x509 : X509Env
  autoscalerOk : Bool
  kubeOk : Bool
  landingPageOk : Bool

/-- Modelled from the spec: `Service.Start` (defined outside src/) blocks on
the message loop and returns `nil` only once a shutdown signal
(SIGINT/SIGTERM, wired through the root context) has been observed and the
service has drained; a non-`nil` return is a start failure. -/
structure ServiceBehavior where
  startError : Bool
  signalObserved : Bool
  drained : Bool
  clean_return_after_drain : startError = false → signalObserved = true ∧ drained = true

/-- The options `run` itself passes to `newActionsClientFromConfig`:
`WithLogger` and `WithUserAgent`. -/
def runInitialOptions : List ClientOption :=
  [ClientOption.withLogger, ClientOption.withUserAgent]

/-- The tail of `run` after the Actions client was built: listener,
kube manager, service construction, conditional metrics registration,
then `service.Start()`. -/
def runTraceAfterClient (rc : RunnerScaleSetListenerConfig) (env : RunEnv)
    (svc : ServiceBehavior) (opts : List ClientOption) :
    List RunEvent × RunExit :=
  let ev3 := [RunEvent.credsBuilt (buildCreds rc), RunEvent.clientCreated opts,
    RunEvent.autoscalerRequested rc.RunnerScaleSetId]
  if env.autoscalerOk = false then
    (ev3, RunExit.returnsError RunFailStage.autoscalerCreation)
  else if env.kubeOk = false then
    (ev3, RunExit.returnsError RunFailStage.kubeManagerCreation)
  else
    let ev5 := ev3 ++ [RunEvent.kubeManagerCreated,
      RunEvent.serviceCreated (scaleSettingsOf rc) (servicePrometheusLabels rc)]
    if rc.EnablePrometheusMetrics then
      let ev6 := ev5 ++ [RunEvent.collectorsRegistered scaleSetCollectors]
      if env.landingPageOk = false then
        (ev6, RunExit.processExit)
      else if svc.startError then
        (ev6 ++ [RunEvent.serviceStarted], RunExit.returnsError RunFailStage.startFailure)
      else
        (ev6 ++ [RunEvent.serviceStarted], RunExit.returnsNil)
    else if svc.startError then
      (ev5 ++ [RunEvent.serviceStarted], RunExit.returnsError RunFailStage.startFailure)
    else
      (ev5 ++ [RunEvent.serviceStarted], RunExit.returnsNil)

/-- `run` from main.go as the ordered trace of the calls it makes together
with how it ends, driven by the oracles for its collaborators. -/
def runTrace (rc : RunnerScaleSetListenerConfig) (env : RunEnv)
    (svc : ServiceBehavior) : List RunEvent × RunExit :=
  match newActionsClientFromConfig rc env.x509 runInitialOptions with
  | Except.error _ =>
    ([RunEvent.credsBuilt (buildCreds rc)],
      RunExit.returnsError RunFailStage.clientCreation)
  | Except.ok opts => runTraceAfterClient rc env svc opts

/-- Discriminator: a service-construction event. -/
def RunEvent.isServiceCreation : RunEvent → Bool
  | RunEvent.serviceCreated _ _ => true
  | _ => false

/-- Discriminator: a collector-registration event. -/
def RunEvent.isRegistration : RunEvent → Bool
  | RunEvent.collectorsRegistered _ => true
  | _ => false

/-- Discriminator: the `service.Start()` event. -/
def RunEvent.isServiceStart : RunEvent → Bool
  | RunEvent.serviceStarted => true
  | _ => false

/-- `true` when the first event satisfying `q` comes strictly after an event
satisfying `p` (vacuously when no event satisfies `q`). -/
def precededBy (p q : RunEvent → Bool) : List RunEvent → Bool
  | [] => true
  | e :: es => if q e then false else if p e then true else precededBy p q es

/-- When the Actions client cannot be built, `run` returns that error at
once: a one-event trace. -/
theorem runTrace_client_error (rc : RunnerScaleSetListenerConfig)
    (env : RunEnv) (svc : ServiceBehavior) (e : ClientBuildError)
    (hc : newActionsClientFromConfig rc env.x509 runInitialOptions = Except.error e) :
    runTrace rc env svc =
      ([RunEvent.credsBuilt (buildCreds rc)],
        RunExit.returnsError RunFailStage.clientCreation) := by
  unfold runTrace
  rw [hc]

/-- When the Actions client is built, `run` continues with the tail of the
trace. -/
theorem runTrace_client_ok (rc : RunnerScaleSetListenerConfig)
    (env : RunEnv) (svc : ServiceBehavior) (opts : List ClientOption)
    (hc : newActionsClientFromConfig rc env.x509 runInitialOptions = Except.ok opts) :
    runTrace rc env svc = runTraceAfterClient rc env svc opts := by
  unfold runTrace
  rw [hc]

/-- All external constructions succeed; no custom CA is consulted. -/
def envAllOk : RunEnv :=
  { x509 := { systemPool := some ["sys"], parsePEM := fun _ => [] }
    autoscalerOk := true
    kubeOk := true
    landingPageOk := true }

/-- A clean shutdown: `Start` returned `nil` after signal and drain. -/
def svcCleanShutdown : ServiceBehavior :=
  { startError := false
    signalObserved := true
    drained := true
    clean_return_after_drain := fun _ => ⟨rfl, rfl⟩ }

/-- C3: once entered, `run` returns `nil` only after a shutdown signal has
been observed and the service has drained; every other way out is an error
return from client, listener or kube-manager construction or from service
start — or the landing-page `os.Exit(1)`, which is a process exit, not a
return of `run`. -/
theorem run_returns_only_on_error_or_shutdown (rc : RunnerScaleSetListenerConfig)
    (env : RunEnv) (svc : ServiceBehavior) :
    ((runTrace rc env svc).2 = RunExit.returnsNil →
      svc.signalObserved = true ∧ svc.drained = true) ∧
    ((runTrace rc env svc).2 = RunExit.returnsNil ∨
      (runTrace rc env svc).2 = RunExit.processExit ∨
      ∃ s, (runTrace rc env svc).2 = RunExit.returnsError s) := by
  constructor
  · intro h
    apply svc.clean_return_after_drain
    rcases hc : newActionsClientFromConfig rc env.x509 runInitialOptions with e | opts
    · rw [runTrace_client_error rc env svc e hc] at h
      simp at h
    · rw [runTrace_client_ok rc env svc opts hc] at h
      unfold runTraceAfterClient at h
      split_ifs at h <;> simp_all
  · cases hr : (runTrace rc env svc).2 with
    | returnsError s => exact Or.inr (Or.inr ⟨s, rfl⟩)
    | processExit => exact Or.inr (Or.inl rfl)
    | returnsNil => exact Or.inl rfl

/-- C3 witness: on the all-good oracles, `run` returns `nil` and the signal
had been observed with the service drained. -/
theorem run_returns_only_on_error_or_shutdown_witness :
    (runTrace cfgValidToken envAllOk svcCleanShutdown).2 = RunExit.returnsNil ∧
      svcCleanShutdown.signalObserved = true ∧ svcCleanShutdown.drained = true := by
  have hnil : (runTrace cfgValidToken envAllOk svcCleanShutdown).2 = RunExit.returnsNil := by
    rfl
  exact ⟨hnil,
    (run_returns_only_on_error_or_shutdown cfgValidToken envAllOk svcCleanShutdown).1 hnil⟩

/-- C6: every service construction in `run` carries the `ScaleSettings`
whose fields are the configuration fields unchanged; the service is
constructed at most once, and on every path that starts the loop it is
constructed exactly once, before `service.Start()` — there is no later write
to the settings. -/
theorem scaleSettings_built_once_unchanged (rc : RunnerScaleSetListenerConfig)
    (env : RunEnv) (svc : ServiceBehavior) :
    (∀ s l, RunEvent.serviceCreated s l ∈ (runTrace rc env svc).1 →
      s = { Namespace := rc.EphemeralRunnerSetNamespace
            ResourceName := rc.EphemeralRunnerSetName
            MaxRunners := rc.MaxRunners
            MinRunners := rc.MinRunners }) ∧
    ((runTrace rc env svc).1.filter RunEvent.isServiceCreation).length ≤ 1 ∧
    ((runTrace rc env svc).1.any RunEvent.isServiceStart = true →
      ((runTrace rc env svc).1.filter RunEvent.isServiceCreation).length = 1 ∧
      precededBy RunEvent.isServiceCreation RunEvent.isServiceStart
        (runTrace rc env svc).1 = true) := by
  rcases hc : newActionsClientFromConfig rc env.x509 runInitialOptions with e | opts
  · rw [runTrace_client_error rc env svc e hc]
    refine ⟨?_, ?_, ?_⟩ <;>
      simp [RunEvent.isServiceCreation, RunEvent.isServiceStart]
  · rw [runTrace_client_ok rc env svc opts hc]
    unfold runTraceAfterClient
    split_ifs <;> refine ⟨?_, ?_, ?_⟩ <;>
      simp [scaleSettingsOf, RunEvent.isServiceCreation, RunEvent.isServiceStart,
        precededBy]

/-- C6 witness: on the all-good oracles the loop starts and the single
constructed settings value equals the config fields. -/
theorem scaleSettings_built_once_unchanged_witness :
    ((runTrace cfgValidToken envAllOk svcCleanShutdown).1.any
        RunEvent.isServiceStart = true) ∧
      ((runTrace cfgValidToken envAllOk svcCleanShutdown).1.filter
          RunEvent.isServiceCreation).length = 1 ∧
      RunEvent.serviceCreated
          { Namespace := "arc-ns", ResourceName := "arc-set",
            MaxRunners := 5, MinRunners := 0 }
          (servicePrometheusLabels cfgValidToken) ∈
        (runTrace cfgValidToken envAllOk svcCleanShutdown).1 := by
  have hst : (runTrace cfgValidToken envAllOk svcCleanShutdown).1.any
      RunEvent.isServiceStart = true := by rfl
  have h := (scaleSettings_built_once_unchanged cfgValidToken envAllOk
    svcCleanShutdown).2.2 hst
  exact ⟨hst, h.1, by decide⟩

/-- C7: with prometheus metrics enabled, the register call carries exactly
the sixteen pairwise-distinct scale-set collectors; registration happens at
most once on any path — exactly once, before `service.Start()`, on every
path that starts the loop — and `MustRegister` on the empty startup registry
cannot reach its duplicate-registration panic. -/
theorem collectors_registered_once (rc : RunnerScaleSetListenerConfig)
    (env : RunEnv) (svc : ServiceBehavior)
    (hm : rc.EnablePrometheusMetrics = true) :
    scaleSetCollectors.length = 16 ∧
    scaleSetCollectors.Nodup ∧
    (mustRegister [] scaleSetCollectors).isSome = true ∧
    (∀ cs, RunEvent.collectorsRegistered cs ∈ (runTrace rc env svc).1 →
      cs = scaleSetCollectors) ∧
    ((runTrace rc env svc).1.filter RunEvent.isRegistration).length ≤ 1 ∧
    ((runTrace rc env svc).1.any RunEvent.isServiceStart = true →
      ((runTrace rc env svc).1.filter RunEvent.isRegistration).length = 1 ∧
      precededBy RunEvent.isRegistration RunEvent.isServiceStart
        (runTrace rc env svc).1 = true) := by
  refine ⟨by decide, by decide, by decide, ?_, ?_, ?_⟩ <;>
    rcases hc : newActionsClientFromConfig rc env.x509 runInitialOptions with e | opts
  · rw [runTrace_client_error rc env svc e hc]
    simp
  · rw [runTrace_client_ok rc env svc opts hc]
    unfold runTraceAfterClient
    split_ifs <;> simp_all
  · rw [runTrace_client_error rc env svc e hc]
    simp [RunEvent.isRegistration]
  · rw [runTrace_client_ok rc env svc opts hc]
    unfold runTraceAfterClient
    split_ifs <;> simp_all [RunEvent.isRegistration]
  · rw [runTrace_client_error rc env svc e hc]
    simp [RunEvent.isServiceStart]
  · rw [runTrace_client_ok rc env svc opts hc]
    unfold runTraceAfterClient
    split_ifs <;>
      simp_all [RunEvent.isRegistration, RunEvent.isServiceStart, precededBy]

/-- C7 witness: on the all-good oracles with metrics enabled, the loop
starts, registration happened exactly once before it, and `MustRegister`
does not panic. -/
theorem collectors_registered_once_witness :
    cfgValidToken.EnablePrometheusMetrics = true ∧
      (mustRegister [] scaleSetCollectors).isSome = true ∧
      ((runTrace cfgValidToken envAllOk svcCleanShutdown).1.filter
          RunEvent.isRegistration).length = 1 ∧
      precededBy RunEvent.isRegistration RunEvent.isServiceStart
        (runTrace cfgValidToken envAllOk svcCleanShutdown).1 = true := by
  have h := collectors_registered_once cfgValidToken envAllOk svcCleanShutdown rfl
  have hst : (runTrace cfgValidToken envAllOk svcCleanShutdown).1.any
      RunEvent.isServiceStart = true := by rfl
  exact ⟨rfl, h.2.2.1, (h.2.2.2.2.2 hst).1, (h.2.2.2.2.2 hst).2⟩

/-- The valid token configuration with `RunnerScaleSetId = 65`. -/
def cfgScaleSetId65 : RunnerScaleSetListenerConfig :=
  { cfgValidToken with RunnerScaleSetId := 65 }

/-- C4, divergence at `RunnerScaleSetId = 65`: the label set is the four
claimed keys with the claimed values except the first: the source computes
`string(rc.RunnerScaleSetId)`, the Go code-point conversion, so the
`runner_scale_set_name` value is `"A"` and not the decimal `"65"`. -/
theorem runner_scale_set_name_label_not_decimal :
    servicePrometheusLabels cfgScaleSetId65 =
      [("runner_scale_set_name", "A"),
       ("runner_scale_set_config_url", "https://github.example.com/org"),
       ("auto_scaling_runner_set_name", "arc-set"),
       ("auto_scaling_runner_set_namespace", "arc-ns")] ∧
    decimalRepr cfgScaleSetId65.RunnerScaleSetId = "65" ∧
    goStringOfInt cfgScaleSetId65.RunnerScaleSetId ≠
      decimalRepr cfgScaleSetId65.RunnerScaleSetId := by
  refine ⟨?_, ?_, ?_⟩ <;> decide

/-- A token-auth configuration with a negative `RunnerScaleSetId`. -/
def cfgNegativeScaleSetId : RunnerScaleSetListenerConfig :=
  { cfgValidToken with RunnerScaleSetId := -4, EnablePrometheusMetrics := false }

/-- C10: only `RunnerScaleSetId == 0` counts as missing: with the other
fields valid, any negative id passes `validateConfig`, and `run` hands
exactly that id to `NewAutoScalerClient` for the listener. -/
theorem negative_scaleSetId_accepted (rc : RunnerScaleSetListenerConfig)
    (env : RunEnv) (svc : ServiceBehavior)
    (hurl : rc.ConfigureUrl ≠ "") (hns : rc.EphemeralRunnerSetNamespace ≠ "")
    (hname : rc.EphemeralRunnerSetName ≠ "")
    (hb : rc.MinRunners ≤ rc.MaxRunners)
    (hauth : (rc.Token ≠ "" ∧ ¬ hasPrivateKeyConfig rc) ∨
      (rc.Token = "" ∧ hasPrivateKeyConfig rc))
    (hneg : rc.RunnerScaleSetId < 0) :
    validateConfig rc = none ∧
      (∀ opts,
        newActionsClientFromConfig rc env.x509 runInitialOptions = Except.ok opts →
        RunEvent.autoscalerRequested rc.RunnerScaleSetId ∈ (runTrace rc env svc).1) := by
  constructor
  · have hurl0 : ¬ rc.ConfigureUrl.length = 0 :=
      fun h => hurl ((length_zero_iff_empty _).mp h)
    have hns0 : ¬ (rc.EphemeralRunnerSetNamespace.length = 0 ∨
        rc.EphemeralRunnerSetName.length = 0) := by
      rintro (h | h)
      · exact hns ((length_zero_iff_empty _).mp h)
      · exact hname ((length_zero_iff_empty _).mp h)
    have hid : ¬ rc.RunnerScaleSetId = 0 := by omega
    have hnb : ¬ rc.MaxRunners < rc.MinRunners := by omega
    have h5 : ¬ (¬ rc.Token.length > 0 ∧ ¬ (rc.AppID > 0 ∧ rc.AppPrivateKey ≠ "")) := by
      rcases hauth with ⟨ht, hk⟩ | ⟨ht, hk⟩
      · intro h5c
        have h0 : rc.Token.length = 0 := by omega
        exact ht ((length_zero_iff_empty _).mp h0)
      · exact fun h5c => h5c.2 hk
    have h6 : ¬ (rc.Token.length > 0 ∧ (rc.AppID > 0 ∧ rc.AppPrivateKey ≠ "")) := by
      rcases hauth with ⟨ht, hk⟩ | ⟨ht, hk⟩
      · exact fun h6c => hk h6c.2
      · intro h6c
        have h0 : rc.Token.length = 0 := (length_zero_iff_empty _).mpr ht
        omega
    unfold validateConfig
    rw [if_neg hurl0, if_neg hns0, if_neg hid, if_neg hnb, if_neg h5, if_neg h6]
  · intro opts hok
    rw [runTrace_client_ok rc env svc opts hok]
    unfold runTraceAfterClient
    split_ifs <;> simp

/-- C10 witness: `RunnerScaleSetId = -4` is accepted and handed to the
listener on the all-good oracles. -/
theorem negative_scaleSetId_accepted_witness :
    validateConfig cfgNegativeScaleSetId = none ∧
      RunEvent.autoscalerRequested (-4) ∈
        (runTrace cfgNegativeScaleSetId envAllOk svcCleanShutdown).1 := by
  have h := negative_scaleSetId_accepted cfgNegativeScaleSetId envAllOk
    svcCleanShutdown (by decide) (by decide) (by decide) (by decide)
    (Or.inl ⟨by decide, by decide⟩) (by decide)
  refine ⟨h.1, h.2 (runInitialOptions ++ [ClientOption.withProxyFromEnvironment]) ?_⟩
  rfl
